import Mathlib

/-!
Verification of the claim-cost prediction app (`src/app.py`).

The program is a single synchronous flow: read five form inputs, build a
one-row feature table (`input_data` / `input_df`), reindex it to the fixed
training-column order with zero fill, call the pre-fitted regressor, truncate
the float prediction with Python `int()`, and classify the integer cost into a
risk tier by two fixed thresholds.

Shallow embedding conventions:
* machine/NumPy integers are `ℤ`; the regressor's float output is `ℚ`;
* the trained regressor is opaque to the app, so a model is embedded as a
  function from one encoded feature row to its predicted cost (`Model`) — the
  app only ever passes a single row and reads `prediction[0]`;
* a one-row pandas DataFrame keyed by column name is an association list
  `List (String × ℤ)`;
* the startup branch on `os.path.exists(MODEL_FILE)` (lines 59-66) is a
  function of the file-existence flag, the outcome of `joblib.load`
  (an `Except`, since a raised deserialization error is caught nowhere), and
  the freshly fitted regressor that `train_model` would return.
-/

/-- `MODEL_FILE = 'charge_sinistre_model.pkl'` (line 12). -/
def MODEL_FILE : String := "charge_sinistre_model.pkl"

/-- A trained regressor, opaque to the app: one encoded feature row in, one
predicted cost out (the app always passes exactly one row to
`model.predict` and reads `prediction[0]`). -/
abbrev Model : Type := List ℤ → ℚ

/-- Python `int()` applied to a float truncates toward zero; on a rational
this is T-division of the numerator by the denominator. Embeds the `int(...)`
call of line 105. -/
def pyInt (q : ℚ) : ℤ := q.num.tdiv q.den

/-- The three advisory buckets of lines 112-117 (`st.error` / `st.warning` /
`st.success`), i.e. the spec's HIGH / MEDIUM / LOW tiers. -/
inductive Tier where
  | LOW
  | MEDIUM
  | HIGH
deriving DecidableEq, Repr

/-- The tier branches of lines 112-117:
`if charge_finale > 200000: HIGH elif charge_finale > 80000: MEDIUM else: LOW`. -/
def tierOf (charge : ℤ) : Tier :=
  if charge > 200000 then Tier.HIGH
  else if charge > 80000 then Tier.MEDIUM
  else Tier.LOW

/-- `training_cols` as set manually in the load branch (line 66). -/
def training_cols : List String :=
  ["valeur_vehicule_neuf", "age_vehicule_ans", "puissance_fiscale",
   "type_conducteur_Principal", "zone_circulation_Urbaine"]

/-- Columns of the synthetic training DataFrame (lines 23-39): the five raw
columns in dict insertion order, then `charge_sinistre` appended by the
assignment of line 38. -/
def df_cols : List String :=
  ["valeur_vehicule_neuf", "age_vehicule_ans", "puissance_fiscale",
   "type_conducteur", "zone_circulation", "charge_sinistre"]

/-- The two columns dummified by `pd.get_dummies` (line 42), each with its
category values in sorted order, as pandas enumerates them. -/
def dummy_cats : List (String × List String) :=
  [("type_conducteur", ["Occasionnel", "Principal"]),
   ("zone_circulation", ["Rurale", "Urbaine"])]

/-- Column order produced by `pd.get_dummies(df, columns=..., drop_first=True)`
(line 42): the non-dummified columns keep their relative order, then each
dummified column contributes one `col_value` indicator per category except the
first (dropped by `drop_first=True`). -/
def get_dummies_columns (cols : List String) (cats : List (String × List String)) :
    List String :=
  cols.filter (fun c => (cats.lookup c).isNone) ++
    cats.foldr (fun pr acc => ((pr.2.drop 1).map (fun v => pr.1 ++ "_" ++ v)) ++ acc) []

/-- `list(X.columns)` returned by `train_model` (lines 45, 55): the encoded
columns minus the dropped target `charge_sinistre`. -/
def train_model_cols : List String :=
  (get_dummies_columns df_cols dummy_cats).filter (fun c => c ≠ "charge_sinistre")

/-- Line 95: `1 if type_cond_text == 'Principal' else 0`. -/
def type_conducteur_Principal (type_cond_text : String) : ℤ :=
  if type_cond_text = "Principal" then 1 else 0

/-- Line 96: `1 if zone_circ_text == 'Urbaine' else 0`. -/
def zone_circulation_Urbaine (zone_circ_text : String) : ℤ :=
  if zone_circ_text = "Urbaine" then 1 else 0

/-- The `input_data` dict of lines 91-97 (one row, so each singleton list
`[x]` is embedded as its single value). -/
def input_data (valeur_neuf age_vehicule puissance : ℤ)
    (type_cond_text zone_circ_text : String) : List (String × ℤ) :=
  [("valeur_vehicule_neuf", valeur_neuf),
   ("age_vehicule_ans", age_vehicule),
   ("puissance_fiscale", puissance),
   ("type_conducteur_Principal", type_conducteur_Principal type_cond_text),
   ("zone_circulation_Urbaine", zone_circulation_Urbaine zone_circ_text)]

/-- `df.reindex(columns=cols, fill_value=0)` (line 101) on a one-row frame:
for each requested column in order, take the row's value if the column is
present, else fill with 0. -/
def reindex (cols : List String) (data : List (String × ℤ)) : List ℤ :=
  cols.map (fun c => (data.lookup c).getD 0)

/-- The encoded one-row feature table `input_df` after the reindex of
line 101: the row actually passed to `model.predict`. -/
def input_df (valeur_neuf age_vehicule puissance : ℤ)
    (type_cond_text zone_circ_text : String) : List ℤ :=
  reindex training_cols
    (input_data valeur_neuf age_vehicule puissance type_cond_text zone_circ_text)

/-- Lines 104-105: `prediction = model.predict(input_df)` followed by
`charge_finale = int(prediction[0])`. -/
def charge_finale (model : Model) (row : List ℤ) : ℤ := pyInt (model row)

/-- The spec's `predict(features) -> (cost, tier)` operation: the integer cost
of lines 104-105 paired with the tier branch of lines 112-117. -/
def predict_result (model : Model) (row : List ℤ) : ℤ × Tier :=
  (charge_finale model row, tierOf (charge_finale model row))

/-- The radio options of line 85 (`Type de conducteur`). -/
def form_type_options : List String := ["Principal", "Occasionnel"]

/-- The radio options of line 86 (`Zone de circulation principale`). -/
def form_zone_options : List String := ["Urbaine", "Rurale"]

/-- The select-slider options of line 84 (`Puissance fiscale`). -/
def form_puissance_options : List ℤ := [6, 7, 8, 9, 10, 11, 12, 13, 14, 15]

/-- Outcome of the startup block: either the app is serving predictions with
a model and a column list, or the script died on an uncaught exception. -/
inductive StartupOutcome where
  | serving (m : Model) (cols : List String)
  | crashed (msg : String)

/-- The load-or-train branch of lines 59-66. `model_file_exists` abstracts
`os.path.exists(MODEL_FILE)`; `joblib_load` is the outcome of
`joblib.load(MODEL_FILE)` (`Except.error` is a raised exception, which no
`try/except` in the program catches); `fresh` is the regressor `train_model`
fits on its synthetic dataset. The `Bool` of the result records whether the
model file exists afterwards (`train_model` ends with `joblib.dump`, line 53;
and a file that existed keeps existing). -/
def startup (model_file_exists : Bool) (joblib_load : Except String Model)
    (fresh : Model) : StartupOutcome × Bool :=
  if model_file_exists then
    match joblib_load with
    | Except.ok m => (StartupOutcome.serving m training_cols, true)
    | Except.error e => (StartupOutcome.crashed e, true)
  else
    (StartupOutcome.serving fresh train_model_cols, true)

/-- Truncation characterized on the nonnegative side: for `0 ≤ q`, Python
`int()` agrees with the floor. -/
theorem pyInt_of_nonneg (q : ℚ) (h : 0 ≤ q) : pyInt q = ⌊q⌋ := by
  rw [pyInt, Rat.floor_def,
    Int.tdiv_eq_ediv (Rat.num_nonneg.mpr h) (Int.ofNat_nonneg q.den)]

/-- Truncation characterized on the negative side: for `q < 0`, Python
`int()` agrees with the ceiling. -/
theorem pyInt_of_neg (q : ℚ) (h : q < 0) : pyInt q = ⌈q⌉ := by
  have h4 : (0 : ℤ) ≤ -q.num := by
    have h5 := Rat.num_nonneg.mpr (le_of_lt (neg_pos.mpr h))
    rwa [Rat.neg_num] at h5
  rw [pyInt, show q.num = -(-q.num) by ring, Int.neg_tdiv,
    Int.tdiv_eq_ediv h4 (Int.ofNat_nonneg q.den),
    show (-q.num : ℤ) = (-q).num by rw [Rat.neg_num],
    show ((q.den : ℤ)) = ((-q).den : ℤ) by rw [Rat.neg_den], ← Rat.floor_def,
    Int.floor_neg, neg_neg]

/-- `pyInt` is truncation toward zero: floor above zero, ceiling below. -/
theorem pyInt_trunc (q : ℚ) : pyInt q = if 0 ≤ q then ⌊q⌋ else ⌈q⌉ := by
  split
  · exact pyInt_of_nonneg q (by assumption)
  · exact pyInt_of_neg q (not_le.mp (by assumption))

/-- The manually fixed column list of line 66 coincides with the columns the
training pipeline of `train_model` produces. -/
theorem train_model_cols_eq : train_model_cols = training_cols := by decide

/-- C1: the risk tier is a pure function of the integer cost with fixed
thresholds: cost > 200000 is HIGH, 80000 < cost ≤ 200000 is MEDIUM, and
cost ≤ 80000 is LOW; in particular 200001 is HIGH, 200000 is MEDIUM, 80001 is
MEDIUM, 80000 is LOW and 0 is LOW. -/
theorem C1_tier_classification (cost : ℤ) :
    (tierOf cost = Tier.HIGH ↔ 200000 < cost) ∧
    (tierOf cost = Tier.MEDIUM ↔ 80000 < cost ∧ cost ≤ 200000) ∧
    (tierOf cost = Tier.LOW ↔ cost ≤ 80000) ∧
    tierOf 200001 = Tier.HIGH ∧ tierOf 200000 = Tier.MEDIUM ∧
    tierOf 80001 = Tier.MEDIUM ∧ tierOf 80000 = Tier.LOW ∧
    tierOf 0 = Tier.LOW := by
  refine ⟨?_, ?_, ?_, by decide, by decide, by decide, by decide, by decide⟩ <;>
    (unfold tierOf; split_ifs <;> simp_all <;> omega)

/-- C2: the reindexed feature vector always has exactly five entries, in the
fixed training-column order, each entry being the input's value for that
column with missing columns defaulted to 0 (so the all-missing row encodes to
five zeros); and the training pipeline produces this same five-column schema. -/
theorem C2_feature_vector_shape (data : List (String × ℤ)) :
    (reindex training_cols data).length = 5 ∧
    reindex training_cols data =
      [(data.lookup "valeur_vehicule_neuf").getD 0,
       (data.lookup "age_vehicule_ans").getD 0,
       (data.lookup "puissance_fiscale").getD 0,
       (data.lookup "type_conducteur_Principal").getD 0,
       (data.lookup "zone_circulation_Urbaine").getD 0] ∧
    reindex training_cols [] = [0, 0, 0, 0, 0] ∧
    train_model_cols = training_cols :=
  ⟨rfl, rfl, rfl, train_model_cols_eq⟩

/-- C3 counterexample: with the model artifact unavailable (the file does not
exist, so loading it is impossible), the app still reaches a serving state —
it falls back to training — and a prediction call then succeeds, contradicting
"no prediction call succeeds". -/
theorem C3_counterexample :
    (startup false (Except.error "FileNotFoundError") (fun _ => 95000)).1 =
      StartupOutcome.serving (fun _ => 95000) train_model_cols ∧
    predict_result (fun _ => 95000) (input_df 250000 5 8 "Principal" "Urbaine") =
      (95000, Tier.MEDIUM) :=
  ⟨rfl, by decide⟩

/-- C3 amended: only a present-but-unloadable artifact halts the app (the
`joblib.load` exception is caught nowhere, so no prediction is served); a
missing artifact instead triggers the training fallback and the app serves
predictions with the fresh model. -/
theorem C3_amended_load_behavior (e : String) (load : Except String Model)
    (fresh : Model) :
    (startup true (Except.error e) fresh).1 = StartupOutcome.crashed e ∧
    (startup false load fresh).1 =
      StartupOutcome.serving fresh train_model_cols :=
  ⟨rfl, rfl⟩

/-- C4: the encoded zone flag is 1 exactly when the zone label equals the
reference label (spelled `"Urbaine"` in the source, the spec's "Urban"
option); any other label encodes to 0; and the flag sits at index 4 of the
feature vector. -/
theorem C4_zone_encoding (v a p : ℤ) (t z : String) :
    (zone_circulation_Urbaine z = 1 ↔ z = "Urbaine") ∧
    (z ≠ "Urbaine" → zone_circulation_Urbaine z = 0) ∧
    (input_df v a p t z)[4]? = some (zone_circulation_Urbaine z) := by
  refine ⟨?_, ?_, rfl⟩ <;>
    by_cases h : z = "Urbaine" <;> simp [zone_circulation_Urbaine, h]

/-- C4 witness: the other radio option, `"Rurale"`, encodes to 0. -/
theorem C4_zone_encoding_witness : zone_circulation_Urbaine "Rurale" = 0 :=
  (C4_zone_encoding 0 0 0 "Principal" "Rurale").2.1 (by decide)

/-- C5: the encoded driver flag is 1 exactly when the driver-type label
equals `"Principal"`; every other value, including the case variants
`"principal"` and `"PRINCIPAL"`, encodes to 0; and the flag sits at index 3
of the feature vector. -/
theorem C5_driver_encoding (v a p : ℤ) (t z : String) :
    (type_conducteur_Principal t = 1 ↔ t = "Principal") ∧
    (t ≠ "Principal" → type_conducteur_Principal t = 0) ∧
    type_conducteur_Principal "principal" = 0 ∧
    type_conducteur_Principal "PRINCIPAL" = 0 ∧
    type_conducteur_Principal "Occasionnel" = 0 ∧
    (input_df v a p t z)[3]? = some (type_conducteur_Principal t) := by
  refine ⟨?_, ?_, by decide, by decide, by decide, rfl⟩ <;>
    by_cases h : t = "Principal" <;> simp [type_conducteur_Principal, h]

/-- C5 witness: the lower-case variant `"principal"` encodes to 0. -/
theorem C5_driver_encoding_witness : type_conducteur_Principal "principal" = 0 :=
  (C5_driver_encoding 0 0 0 "principal" "Urbaine").2.1 (by decide)

/-- C6: `int(prediction[0])` truncates the model's rational output toward
zero — floor for nonnegative outputs, ceiling for negative ones — and is not
rounding: 19/10 gives 1 (not 2) and -19/10 gives -1 (not -2). -/
theorem C6_int_truncates (model : Model) (row : List ℤ) :
    charge_finale model row =
      (if 0 ≤ model row then ⌊model row⌋ else ⌈model row⌉) ∧
    pyInt (19 / 10) = 1 ∧ pyInt (-19 / 10) = -1 := by
  refine ⟨pyInt_trunc (model row), ?_, ?_⟩
  · rw [pyInt_trunc, if_pos (by norm_num)]
    norm_num [Int.floor_eq_iff]
  · rw [pyInt_trunc, if_neg (by norm_num)]
    norm_num [Int.ceil_eq_iff]

/-- C7: end-to-end example — the input (value 250000, age 5, power 8, driver
"Principal", zone "Urbaine") encodes to [250000, 5, 8, 1, 1], and with a
model returning 95000 the prediction is (95000, MEDIUM). -/
theorem C7_end_to_end :
    input_df 250000 5 8 "Principal" "Urbaine" = [250000, 5, 8, 1, 1] ∧
    predict_result (fun _ => 95000) [250000, 5, 8, 1, 1] =
      (95000, Tier.MEDIUM) :=
  ⟨by decide, by decide⟩

/-- C8: prediction is deterministic — two calls on the same model and the
same encoded feature row return the same (cost, tier) pair. -/
theorem C8_deterministic (model : Model) (row : List ℤ) (out1 out2 : ℤ × Tier)
    (h1 : out1 = predict_result model row) (h2 : out2 = predict_result model row) :
    out1 = out2 :=
  h1.trans h2.symm

/-- C8 witness: two concrete calls on the constant-95000 model agree. -/
theorem C8_deterministic_witness : ((95000 : ℤ), Tier.MEDIUM) = ((95000 : ℤ), Tier.MEDIUM) :=
  C8_deterministic (fun _ => 95000) [250000, 5, 8, 1, 1]
    (95000, Tier.MEDIUM) (95000, Tier.MEDIUM) (by decide) (by decide)

/-- C9: when the model file is absent the program does not halt: it runs
`train_model` (fit on a fresh synthetic dataset, abstracted as `fresh`),
saves the model file (the `true` flag), and serves predictions with the
newly trained model and the training-pipeline columns, which coincide with
the fixed five-column schema. -/
theorem C9_missing_file_trains (load : Except String Model) (fresh : Model) :
    startup false load fresh =
      (StartupOutcome.serving fresh train_model_cols, true) ∧
    train_model_cols = training_cols :=
  ⟨rfl, train_model_cols_eq⟩

/-- C10: every input the app's own form can produce fills all five training
columns, so the zero-fill of the reindex is never exercised on this path:
each training column is found in `input_data`, and the encoded vector is the
three raw numerics followed by the two 0/1 flags. -/
theorem C10_form_path_no_fill (v a p : ℤ) (t z : String)
    (_hv : 80000 ≤ v ∧ v ≤ 1000000) (_ha : 0 ≤ a ∧ a ≤ 20)
    (_hp : p ∈ form_puissance_options)
    (_ht : t ∈ form_type_options) (_hz : z ∈ form_zone_options) :
    (input_data v a p t z).map Prod.fst = training_cols ∧
    (∀ c ∈ training_cols, ((input_data v a p t z).lookup c).isSome = true) ∧
    input_df v a p t z =
      [v, a, p, type_conducteur_Principal t, zone_circulation_Urbaine z] ∧
    (type_conducteur_Principal t = 0 ∨ type_conducteur_Principal t = 1) ∧
    (zone_circulation_Urbaine z = 0 ∨ zone_circulation_Urbaine z = 1) := by
  refine ⟨rfl, ?_, rfl, ?_, ?_⟩
  · intro c hc
    simp only [training_cols, List.mem_cons, List.not_mem_nil, or_false] at hc
    rcases hc with rfl | rfl | rfl | rfl | rfl <;> rfl
  · unfold type_conducteur_Principal; split_ifs <;> simp
  · unfold zone_circulation_Urbaine; split_ifs <;> simp

/-- C10 witness: the default form values satisfy the form constraints and
yield a 0/1 driver flag. -/
theorem C10_form_path_no_fill_witness :
    type_conducteur_Principal "Principal" = 0 ∨
    type_conducteur_Principal "Principal" = 1 :=
  (C10_form_path_no_fill 250000 5 8 "Principal" "Urbaine" (by decide) (by decide)
    (by decide) (by decide) (by decide)).2.2.2.1
